import Mathlib

/-!
# Verification of the hgt-bookkeeper normalization-and-ledger engine

A shallow embedding of the core of the `hgt-bookkeeper` repository:
the tax engine (`config.py`), the Stripe normalizer
(`importers/stripe/base.py`, `importers/stripe/csv.py`), the ledger store
(`database.py`) and the GnuCash journal builder / export driver
(`exporters/gnucash.py`).

Monetary amounts (Python floats) are modelled as exact rationals `ℚ`;
`round(x, 2)` is modelled as round-half-even at the second decimal.
Fallible operations (SQLite errors, `float`/`strptime` parse failures)
return `Except`.  Timestamps and generated UUIDs, which the source obtains
from the environment, are threaded as explicit parameters.
-/

/-- Round-half-even to an integer (the rounding mode of Python `round`). -/
def rhe (x : ℚ) : ℤ :=
  let f : ℤ := ⌊x⌋
  let frac : ℚ := x - f
  if frac < 1/2 then f
  else if 1/2 < frac then f + 1
  else if f % 2 = 0 then f else f + 1

/-- `round(x, 2)` from Python, on exact rationals. -/
def round2 (x : ℚ) : ℚ := (rhe (x * 100) : ℚ) / 100

/-- Account-name mapping (`config.py`, `Accounts` dataclass). -/
structure Accounts where
  checking : String
  operating : String
  withholding_fica_employee : String
  withholding_fica_employer : String
  withholding_federal : String
  withholding_state : String
  stripe_balance : String
  transaction_fees : String
  billing_fees : String
  subscription_income : String
  invoice_income : String
  tax_liability_fica_employee : String
  tax_liability_fica_employer : String
  tax_liability_federal : String
  tax_liability_state : String
  tax_expense_fica_employee : String
  tax_expense_fica_employer : String
  tax_expense_federal : String
  tax_expense_state : String
deriving DecidableEq

/-- Tax withholding rates (`config.py`, `TaxRates` dataclass). -/
structure TaxRates where
  fica_employee : ℚ
  fica_employer : ℚ
  federal_income : ℚ
  state_income : ℚ
deriving DecidableEq

/-- Processing options (`config.py`, `Options` dataclass). -/
structure Options where
  auto_withhold : Bool := true
  split_fica : Bool := true
  round_to_cents : Bool := true
deriving DecidableEq

/-- Complete configuration (`config.py`, `Config` dataclass). -/
structure Config where
  accounts : Accounts
  tax_rates : TaxRates
  options : Options
deriving DecidableEq

/-- The dict returned by `Config.calculate_taxes` (keys in insertion order:
fica_employee, fica_employer, federal, state). -/
structure TaxResult where
  fica_employee : ℚ
  fica_employer : ℚ
  federal : ℚ
  state : ℚ
deriving DecidableEq

/-- `Config.calculate_taxes` from `config.py`. -/
def Config.calculate_taxes (c : Config) (gross fees : ℚ) : TaxResult :=
  let fica_employee := gross * c.tax_rates.fica_employee
  let fica_employer := gross * c.tax_rates.fica_employer
  let total_fica := fica_employee + fica_employer
  let income_tax_basis := gross - fees - (total_fica * (1/2))
  let federal := income_tax_basis * c.tax_rates.federal_income
  let state := income_tax_basis * c.tax_rates.state_income
  if c.options.round_to_cents then
    { fica_employee := round2 fica_employee
      fica_employer := round2 fica_employer
      federal := round2 federal
      state := round2 state }
  else
    { fica_employee, fica_employer, federal, state }

/-- `Config.total_withholding` from `config.py`: `sum(taxes.values())`. -/
def Config.total_withholding (c : Config) (gross fees : ℚ) : ℚ :=
  let t := c.calculate_taxes gross fees
  t.fica_employee + t.fica_employer + t.federal + t.state

/-- `Config.available_for_operating` from `config.py`. -/
def Config.available_for_operating (c : Config) (gross fees : ℚ) : ℚ :=
  let net := gross - fees
  net - c.total_withholding gross fees

/-- Python `str.lower()` (character-wise lowering, as `String.toLower`,
but defined on the character list so that the kernel can evaluate it). -/
def strLower (s : String) : String := ⟨s.data.map Char.toLower⟩

/-- Python `str.strip()`: drop leading and trailing whitespace. -/
def pyStrip (s : String) : String :=
  let ws : Char → Bool := fun c => c = ' ' || c = '\t' || c = '\n' || c = '\r'
  ⟨((s.data.dropWhile ws).reverse.dropWhile ws).reverse⟩

/-- Substring test on character lists: Python `pat in hay`. -/
def containsSub (pat : List Char) : List Char → Bool
  | [] => pat.isEmpty
  | c :: t => pat.isPrefixOf (c :: t) || containsSub pat t

/-- Python `pat in hay` on strings. -/
def strContains (hay pat : String) : Bool := containsSub pat.data hay.data

/-- `TYPE_MAPPING` from `importers/stripe/base.py`. -/
def TYPE_MAPPING : List (String × String) :=
  [("charge", "revenue"),
   ("payment", "revenue"),
   ("stripe_fee", "platform_fee"),
   ("payout", "payout"),
   ("refund", "refund"),
   ("adjustment", "adjustment"),
   ("transfer", "payout")]

/-- `SUBSCRIPTION_KEYWORDS` from `importers/stripe/base.py`. -/
def SUBSCRIPTION_KEYWORDS : List String :=
  ["subscription update", "subscription creation", "subscription"]

/-- `INVOICE_KEYWORDS` from `importers/stripe/base.py`. -/
def INVOICE_KEYWORDS : List String :=
  ["payment for invoice"]

/-- `map_transaction_type` from `importers/stripe/base.py`:
`TYPE_MAPPING.get(source_type.lower(), "adjustment")`. -/
def map_transaction_type (source_type : String) : String :=
  (TYPE_MAPPING.lookup (strLower source_type)).getD "adjustment"

/-- `parse_income_category` from `importers/stripe/base.py`.  The
description parameter is `Optional` at call sites; Python's
`(description or "")` maps `None` (and only that here) to `""`. -/
def parse_income_category (description : Option String) (source_type : String) :
    Option String :=
  if strLower source_type ≠ "charge" ∧ strLower source_type ≠ "payment" then none
  else
    let desc_lower := strLower (description.getD "")
    if INVOICE_KEYWORDS.any (fun k => strContains desc_lower k) then some "invoice"
    else if SUBSCRIPTION_KEYWORDS.any (fun k => strContains desc_lower k) then
      some "subscription"
    else if strLower source_type = "payment" then some "invoice"
    else if strLower source_type = "charge" then some "subscription"
    else none

/-- Evaluation rule for `rhe` when the fractional part is below one half. -/
theorem rhe_eq_low (x : ℚ) (f : ℤ) (h1 : (f : ℚ) ≤ x) (h2 : x < f + 1)
    (h3 : x - f < 1/2) : rhe x = f := by
  unfold rhe
  rw [Int.floor_eq_iff.mpr ⟨h1, h2⟩]
  simp only [if_pos h3]

/-- Evaluation rule for `rhe` when the fractional part is above one half. -/
theorem rhe_eq_high (x : ℚ) (f : ℤ) (h1 : (f : ℚ) ≤ x) (h2 : x < f + 1)
    (h3 : 1/2 < x - f) : rhe x = f + 1 := by
  unfold rhe
  rw [Int.floor_eq_iff.mpr ⟨h1, h2⟩]
  rw [if_neg (by linarith), if_pos h3]

/-- Canonical transaction record (`database.py`, `Transaction` dataclass).
The `date` field is annotated `int` in Python but callers may pass `None`
(`parse_date` of an empty created date); the `NOT NULL` column constraint is
the real gate, so it is modelled as `Option Int`.  The remaining `NOT NULL`
columns are always bound by the code paths modelled here. -/
structure Transaction where
  id : String
  source : String
  source_id : String
  source_type : Option String
  date : Option Int
  type : String
  income_category : Option String
  description : Option String
  gross : Option ℚ
  fees : Option ℚ
  net : ℚ
  currency : String
  available_on : Option Int
  payout_id : Option String
  created_at : Int
  metadata : Option String
  exported_gnucash : Option Int := none
deriving DecidableEq

/-- Tax calculation record (`database.py`, `TaxCalculation` dataclass). -/
structure TaxCalculation where
  transaction_id : String
  fica_employee : ℚ
  fica_employer : ℚ
  federal : ℚ
  state : ℚ
  total : ℚ
  calculated_at : Int
deriving DecidableEq

/-- Errors raised by the Python layers that the model distinguishes:
`sqlite3.OperationalError` (I/O-level failure of `conn.execute`) and
`ValueError` (from `float()` / `datetime.strptime`).  `IntegrityError` is
never surfaced: `insert_transaction` catches it. -/
inductive PyError where
  | operationalError
  | valueError
deriving DecidableEq

/-- The SQLite store (`database.py`, class `Database`): the three tables
used by the modelled operations, plus a flag modelling an I/O-level
failure of the underlying connection. -/
structure DB where
  txns : List Transaction
  taxCalcs : List TaxCalculation
  payoutLinks : List (String × String)
  ioFailure : Bool := false
deriving DecidableEq

/-- `Database.transaction_exists`. -/
def DB.transaction_exists (db : DB) (source source_id : String) : Bool :=
  db.txns.any (fun t => t.source = source ∧ t.source_id = source_id)

/-- The conditions under which SQLite raises `IntegrityError` on the
`INSERT INTO transactions` of `insert_transaction`: the `(source, source_id)`
UNIQUE constraint, the `id` PRIMARY KEY, or a `NOT NULL` column bound to
`None` (of which `date` is the one reachable in this model). -/
def integrityViolation (db : DB) (txn : Transaction) : Bool :=
  db.transaction_exists txn.source txn.source_id
    || db.txns.any (fun t => t.id = txn.id)
    || txn.date = none

/-- `Database.insert_transaction`: the `try`/`except sqlite3.IntegrityError`
catches EVERY integrity error and returns `False`; only non-integrity
errors (e.g. `OperationalError` from a failing connection) propagate. -/
def DB.insert_transaction (db : DB) (txn : Transaction) :
    Except PyError (Bool × DB) :=
  if db.ioFailure then .error .operationalError
  else if integrityViolation db txn then .ok (false, db)
  else .ok (true, { db with txns := db.txns ++ [txn] })

/-- `Database.insert_tax_calculation`: `INSERT OR REPLACE` keyed by
`transaction_id`. -/
def DB.insert_tax_calculation (db : DB) (tc : TaxCalculation) :
    Except PyError DB :=
  if db.ioFailure then .error .operationalError
  else .ok { db with
    taxCalcs :=
      db.taxCalcs.filter (fun c => c.transaction_id ≠ tc.transaction_id)
        ++ [tc] }

/-- `Database.get_tax_calculation`. -/
def DB.get_tax_calculation (db : DB) (transaction_id : String) :
    Option TaxCalculation :=
  db.taxCalcs.find? (fun c => c.transaction_id = transaction_id)

/-- The dict returned by `Database.get_taxes_for_payout`. -/
structure PayoutTaxes where
  fica_employee : ℚ
  fica_employer : ℚ
  federal : ℚ
  state : ℚ
  total : ℚ
deriving DecidableEq

/-- Component-wise sums of a list of tax calculations (the SQL `SUM`s of
`get_taxes_for_payout` over the joined rows). -/
def aggregateTaxes (l : List TaxCalculation) : PayoutTaxes :=
  { fica_employee := (l.map TaxCalculation.fica_employee).sum
    fica_employer := (l.map TaxCalculation.fica_employer).sum
    federal := (l.map TaxCalculation.federal).sum
    state := (l.map TaxCalculation.state).sum
    total := (l.map TaxCalculation.total).sum }

/-- `Database.get_taxes_for_payout`: join `tax_calculations` with
`payout_links` on `transaction_id` for the given payout, sum each
component; all-zero structure when no row joins.  (`payout_links` pairs
are UNIQUE and `transaction_id` is a primary key, so each linked
calculation joins exactly once.) -/
def DB.get_taxes_for_payout (db : DB) (payout_id : String) : PayoutTaxes :=
  let linked := db.taxCalcs.filter
    (fun tc => db.payoutLinks.any
      (fun pl => pl.1 = payout_id ∧ pl.2 = tc.transaction_id))
  if linked.isEmpty then ⟨0, 0, 0, 0, 0⟩ else aggregateTaxes linked

/-- `Database.mark_exported`: stamp `exported_<target>` (here the
`gnucash` column) with the current time for every listed id. -/
def DB.mark_exported (db : DB) (transaction_ids : List String) (now : Int) :
    DB :=
  { db with txns := db.txns.map (fun t =>
      if t.id ∈ transaction_ids then { t with exported_gnucash := some now }
      else t) }

/-- `Database.get_unexported_transactions` with no type/date filters (the
form used by `export_all`): rows whose `exported_gnucash` is NULL. -/
def DB.get_unexported_transactions (db : DB) : List Transaction :=
  db.txns.filter (fun t => t.exported_gnucash = none)

/-- `create_transaction` from `importers/stripe/base.py`.  `freshId` models
the `uuid.uuid4()` call and `now` the `now_epoch()` call. -/
def create_transaction (freshId : String) (now : Int)
    (source_id source_type : String) (description : Option String)
    (amount fee net : ℚ) (currency : String)
    (created_date : Option Int) (available_date : Option Int := none)
    (payout_id : Option String := none) : Transaction :=
  let canonical_type := map_transaction_type source_type
  let income_category := parse_income_category description source_type
  let gross : Option ℚ := if canonical_type = "revenue" then some |amount| else none
  let fees : Option ℚ := if canonical_type = "revenue" then some |fee| else none
  { id := freshId
    source := "stripe"
    source_id := source_id
    source_type := some source_type
    date := created_date
    type := canonical_type
    income_category := income_category
    description := description
    gross := gross
    fees := fees
    net := net
    currency := strLower currency
    available_on := available_date
    payout_id := payout_id
    created_at := now
    metadata := none
    exported_gnucash := none }

/-- Module-level `calculate_taxes` from `importers/stripe/base.py`:
builds a `TaxCalculation` for a revenue transaction; `total` is
`sum(taxes.values())`. -/
def calculate_taxes (txn : Transaction) (config : Config) (now : Int) :
    Option TaxCalculation :=
  match txn.gross, txn.fees with
  | some gross, some fees =>
    if txn.type ≠ "revenue" then none
    else
      let taxes := config.calculate_taxes gross fees
      some
        { transaction_id := txn.id
          fica_employee := taxes.fica_employee
          fica_employer := taxes.fica_employer
          federal := taxes.federal
          state := taxes.state
          total := taxes.fica_employee + taxes.fica_employer
            + taxes.federal + taxes.state
          calculated_at := now }
  | _, _ => none

/-- `import_transaction` from `importers/stripe/base.py`. -/
def import_transaction (db : DB) (config : Config) (freshId : String)
    (now : Int) (source_id source_type : String) (description : Option String)
    (amount fee net : ℚ) (currency : String) (created_date : Option Int)
    (available_date : Option Int := none) (payout_id : Option String := none) :
    Except PyError (Bool × DB) := do
  if db.transaction_exists "stripe" source_id then
    return (false, db)
  let txn := create_transaction freshId now source_id source_type description
    amount fee net currency created_date available_date payout_id
  let (inserted, db1) ← db.insert_transaction txn
  if inserted then
    if txn.type = "revenue" then
      match calculate_taxes txn config now with
      | some tax_calc => do
        let db2 ← db1.insert_tax_calculation tax_calc
        return (true, db2)
      | none => return (true, db1)
    else
      return (true, db1)
  else
    return (false, db1)

/-- A raw amount field of a CSV row, together with the outcome of Python
`float()` on its cleaned text: `missing` is `None`, `val q` a value that
parses, `malformed` text on which `float()` raises `ValueError`. -/
inductive RawAmount where
  | missing
  | val (q : ℚ)
  | malformed
deriving DecidableEq

/-- A raw date field: `empty` is a falsy value (`parse_date` returns
`None`), `val e` a `YYYY-MM-DD[ HH:MM:SS]` string whose date part converts
to epoch `e`, `malformed` text on which `strptime` raises `ValueError`. -/
inductive RawDate where
  | empty
  | val (epoch : Int)
  | malformed
deriving DecidableEq

/-- `parse_amount` from `importers/stripe/base.py` (string cleaning
abstracted into `RawAmount`). -/
def parse_amount : RawAmount → Except PyError ℚ
  | .missing => .ok 0
  | .val q => .ok q
  | .malformed => .error .valueError

/-- `parse_date` from `importers/stripe/base.py` (string cleaning
abstracted into `RawDate`). -/
def parse_date : RawDate → Except PyError (Option Int)
  | .empty => .ok none
  | .val e => .ok (some e)
  | .malformed => .error .valueError

/-- One row of a Stripe `balance_history.csv` as read by `import_csv`
(`importers/stripe/csv.py`): the `Description`, `Available On (UTC)` and
`Transfer` columns default to `""`/empty when absent. -/
structure CsvRow where
  id : String
  type : String
  description : String
  amountRaw : RawAmount
  feeRaw : RawAmount
  netRaw : RawAmount
  currency : String
  createdRaw : RawDate
  availableRaw : RawDate
  transfer : String
deriving DecidableEq

/-- The body of `import_csv`'s `try:` block for one row. -/
def importRow (db : DB) (config : Config) (freshId : String) (now : Int)
    (row : CsvRow) : Except PyError (Bool × DB) := do
  let amount ← parse_amount row.amountRaw
  let fee ← parse_amount row.feeRaw
  let net ← parse_amount row.netRaw
  let created ← parse_date row.createdRaw
  let available ← parse_date row.availableRaw
  import_transaction db config freshId now (pyStrip row.id)
    (pyStrip row.type) (some (pyStrip row.description)) amount fee net
    (pyStrip row.currency) created available
    (if pyStrip row.transfer = "" then none else some (pyStrip row.transfer))

/-- The row loop of `import_csv`: per-row `try`/`except Exception`
increments `errors` and continues with the remaining rows.  `freshIds i`
models the `uuid.uuid4()` drawn for the `i`-th row. -/
def importCsvLoop (config : Config) (freshIds : Nat → String) (now : Int) :
    List CsvRow → Nat → DB → (Nat × Nat × Nat) × DB
  | [], _, db => ((0, 0, 0), db)
  | row :: rest, i, db =>
    match importRow db config (freshIds i) now row with
    | .ok (true, db1) =>
      let ((im, sk, er), db2) := importCsvLoop config freshIds now rest (i + 1) db1
      ((im + 1, sk, er), db2)
    | .ok (false, db1) =>
      let ((im, sk, er), db2) := importCsvLoop config freshIds now rest (i + 1) db1
      ((im, sk + 1, er), db2)
    | .error _ =>
      let ((im, sk, er), db2) := importCsvLoop config freshIds now rest (i + 1) db
      ((im, sk, er + 1), db2)

/-- `import_csv` from `importers/stripe/csv.py`: its returned dict,
modelled as the association list of the keys it actually constructs. -/
def import_csv (db : DB) (config : Config) (rows : List CsvRow)
    (freshIds : Nat → String) (now : Int) : List (String × Nat) × DB :=
  let ((imported, skipped, errors), db1) :=
    importCsvLoop config freshIds now rows 0 db
  ([("imported", imported), ("skipped", skipped), ("errors", errors)], db1)

/-- Python `s or default` for an optional string (`None` and `""` are
falsy). -/
def pyOr (s : Option String) (d : String) : String :=
  match s with
  | some v => if v = "" then d else v
  | none => d

/-- Python `str.title()` restricted to the single lower-case words it is
applied to here (`income_category` values): capitalize the first letter. -/
def pyTitle (s : String) : String :=
  ⟨match s.data with
   | [] => []
   | c :: t => c.toUpper :: t⟩

/-- A single split (`exporters/gnucash.py`, `Split` dataclass).
Positive amount = debit, negative = credit. -/
structure Split where
  account : String
  amount : ℚ
  memo : String := ""
deriving DecidableEq

/-- A journal entry (`exporters/gnucash.py`, `JournalEntry` dataclass).
The source stores the date as the `YYYY-MM-DD` rendering of the
transaction's epoch timestamp; the model keeps the epoch itself (`none`
for a null date), which sorts identically. -/
structure JournalEntry where
  date : Option Int
  description : String
  splits : List Split
deriving DecidableEq

/-- `JournalEntry.is_balanced`: `abs(sum of split amounts) < 0.01`. -/
def JournalEntry.is_balanced (e : JournalEntry) : Bool :=
  |((e.splits.map Split.amount).sum)| < 1/100

/-- `GnuCashExporter._build_revenue_entry`. -/
def build_revenue_entry (A : Accounts) (txn : Transaction)
    (tax_calc : Option TaxCalculation) : Option JournalEntry :=
  match txn.gross, txn.fees with
  | some gross, some fees =>
    let income_account :=
      if txn.income_category = some "invoice" then A.invoice_income
      else A.subscription_income
    let taxSplits : List Split :=
      match tax_calc with
      | some tc =>
        [{ account := A.tax_expense_fica_employee, amount := tc.fica_employee,
           memo := "FICA-EE expense" },
         { account := A.tax_expense_fica_employer, amount := tc.fica_employer,
           memo := "FICA-ER expense" },
         { account := A.tax_expense_federal, amount := tc.federal,
           memo := "Federal expense" },
         { account := A.tax_expense_state, amount := tc.state,
           memo := "State expense" },
         { account := A.tax_liability_fica_employee, amount := -tc.fica_employee,
           memo := "FICA-EE liability" },
         { account := A.tax_liability_fica_employer, amount := -tc.fica_employer,
           memo := "FICA-ER liability" },
         { account := A.tax_liability_federal, amount := -tc.federal,
           memo := "Federal liability" },
         { account := A.tax_liability_state, amount := -tc.state,
           memo := "State liability" }]
      | none => []
    some
      { date := txn.date
        description :=
          (match txn.income_category with
           | some c => if c = "" then "Revenue" else pyTitle c
           | none => "Revenue") ++ ": " ++ pyOr txn.description "Revenue"
        splits :=
          [{ account := A.stripe_balance, amount := txn.net,
             memo := "Net to Stripe" },
           { account := A.transaction_fees, amount := fees,
             memo := "Stripe fee" }]
          ++ taxSplits
          ++ [{ account := income_account, amount := -gross,
                memo := txn.description.getD "" }] }
  | _, _ => none

/-- `GnuCashExporter._build_fee_entry`. -/
def build_fee_entry (A : Accounts) (txn : Transaction) : JournalEntry :=
  let amount := |txn.net|
  { date := txn.date
    description := pyOr txn.description "Stripe Billing Fee"
    splits :=
      [{ account := A.stripe_balance, amount := -amount, memo := "Billing fee" },
       { account := A.billing_fees, amount := amount,
         memo := txn.description.getD "" }] }

/-- `GnuCashExporter._build_payout_entry`, with the aggregated taxes that
`self.db.get_taxes_for_payout(txn.id)` returned passed in. -/
def build_payout_entry (A : Accounts) (txn : Transaction)
    (taxes : PayoutTaxes) : JournalEntry :=
  let payout_amount := |txn.net|
  let total_withholding := taxes.total
  let operating_amount := payout_amount - total_withholding
  let base : List Split :=
    [{ account := A.stripe_balance, amount := -payout_amount,
       memo := "Payout to bank" },
     { account := A.operating, amount := operating_amount,
       memo := "Net after withholding" }]
  let w1 : List Split :=
    if 0 < taxes.fica_employee then
      [{ account := A.withholding_fica_employee, amount := taxes.fica_employee,
         memo := "FICA-EE withholding" }]
    else []
  let w2 : List Split :=
    if 0 < taxes.fica_employer then
      [{ account := A.withholding_fica_employer, amount := taxes.fica_employer,
         memo := "FICA-ER withholding" }]
    else []
  let w3 : List Split :=
    if 0 < taxes.federal then
      [{ account := A.withholding_federal, amount := taxes.federal,
         memo := "Federal withholding" }]
    else []
  let w4 : List Split :=
    if 0 < taxes.state then
      [{ account := A.withholding_state, amount := taxes.state,
         memo := "State withholding" }]
    else []
  { date := txn.date
    description := "Stripe Payout"
    splits := base ++ w1 ++ w2 ++ w3 ++ w4 }

/-- Comparison key used when sorting entries: the source sorts by the
`YYYY-MM-DD` string, which orders exactly like the epoch timestamp. -/
def dateLe : Option Int → Option Int → Bool
  | none, _ => true
  | some _, none => false
  | some a, some b => a ≤ b

/-- Observable side effects of `export_all`, in program order:
writing the CSV rows, then (optionally) marking ids exported. -/
inductive Effect where
  | writeCsv (entries : List JournalEntry)
  | mark (ids : List String) (exporter : String)
deriving DecidableEq

/-- Accumulator of `export_all`'s per-transaction loop: the `entries` and
`exported_ids` lists and the `stats` dict. -/
structure ExportOut where
  entries : List JournalEntry
  exportedIds : List String
  revenue : Nat
  platform_fee : Nat
  payout : Nat
  skipped : Nat
deriving DecidableEq

/-- The journal entry `export_all` builds for one transaction: the
type-dispatch of the loop body (`None` for refund/adjustment/unknown). -/
def export_entry (A : Accounts) (db : DB) (txn : Transaction) :
    Option JournalEntry :=
  if txn.type = "revenue" then
    build_revenue_entry A txn (db.get_tax_calculation txn.id)
  else if txn.type = "platform_fee" then some (build_fee_entry A txn)
  else if txn.type = "payout" then
    some (build_payout_entry A txn (db.get_taxes_for_payout txn.id))
  else none

/-- The per-transaction loop of `export_all`: a balanced entry is appended
together with its transaction id and counted under its type; a missing or
unbalanced entry increments `skipped`. -/
def export_loop (A : Accounts) (db : DB) : List Transaction → ExportOut
  | [] => ⟨[], [], 0, 0, 0, 0⟩
  | txn :: rest =>
    let o := export_loop A db rest
    match export_entry A db txn with
    | some e =>
      if e.is_balanced then
        { entries := e :: o.entries
          exportedIds := txn.id :: o.exportedIds
          revenue := (if txn.type = "revenue" then 1 else 0) + o.revenue
          platform_fee :=
            (if txn.type = "platform_fee" then 1 else 0) + o.platform_fee
          payout := (if txn.type = "payout" then 1 else 0) + o.payout
          skipped := o.skipped }
      else { o with skipped := o.skipped + 1 }
    | none => { o with skipped := o.skipped + 1 }

/-- The value of one `export_all` run: the rows written, the ids marked,
the returned statistics, and the ordered side effects. -/
structure ExportRun where
  written : List JournalEntry
  exportedIds : List String
  revenue : Nat
  platform_fee : Nat
  payout : Nat
  skipped : Nat
  total : Nat
  effects : List Effect
deriving DecidableEq

/-- `GnuCashExporter.export_all` (no date filters): fetch unexported
transactions, build and filter entries, sort by date, write the CSV, then
mark the emitted transactions as exported (when requested and non-empty).
Returns the run value and the updated store. -/
def export_all (A : Accounts) (db : DB) (now : Int)
    (mark_exported : Bool := true) : ExportRun × DB :=
  let txns := db.get_unexported_transactions
  let o := export_loop A db txns
  let sorted := o.entries.mergeSort (fun a b => dateLe a.date b.date)
  let doMark := mark_exported && !o.exportedIds.isEmpty
  let db1 := if doMark then db.mark_exported o.exportedIds now else db
  ({ written := sorted
     exportedIds := o.exportedIds
     revenue := o.revenue
     platform_fee := o.platform_fee
     payout := o.payout
     skipped := o.skipped
     total := o.entries.length
     effects :=
       Effect.writeCsv sorted ::
         (if doMark then [Effect.mark o.exportedIds "gnucash"] else []) },
   db1)

/-- `n` successive `export_all` runs with marking enabled. -/
def export_runs (A : Accounts) (now : Int) : Nat → DB → DB
  | 0, db => db
  | n + 1, db => export_runs A now n (export_all A db now true).2

theorem lookup_none_of_no_key {β : Type} (k : String) (l : List (String × β))
    (h : ∀ p ∈ l, p.1 ≠ k) : l.lookup k = none := by
  induction l with
  | nil => rfl
  | cons p t ih =>
    obtain ⟨a, b⟩ := p
    have hk : (k == a) = false :=
      beq_eq_false_iff_ne.mpr fun he => h (a, b) (by simp) he.symm
    simp only [List.lookup, hk]
    exact ih fun q hq => h q (by simp [hq])

/-- C7: `map_transaction_type` realises exactly the fixed table
{charge→revenue, payment→revenue, stripe_fee→platform_fee, payout→payout,
transfer→payout, refund→refund, adjustment→adjustment}, and any string
whose (lowercased) value is not a key of the table — e.g. "mystery_event"
— maps to "adjustment" instead of being dropped or raising. -/
theorem C7_type_mapping :
    (map_transaction_type "charge" = "revenue"
      ∧ map_transaction_type "payment" = "revenue"
      ∧ map_transaction_type "stripe_fee" = "platform_fee"
      ∧ map_transaction_type "payout" = "payout"
      ∧ map_transaction_type "transfer" = "payout"
      ∧ map_transaction_type "refund" = "refund"
      ∧ map_transaction_type "adjustment" = "adjustment")
    ∧ map_transaction_type "mystery_event" = "adjustment"
    ∧ (∀ s : String, strLower s ∉ TYPE_MAPPING.map Prod.fst →
        map_transaction_type s = "adjustment") := by
  refine ⟨by decide, by decide, fun s h => ?_⟩
  unfold map_transaction_type
  rw [lookup_none_of_no_key _ _ fun p hp he => h ?_]
  · rfl
  · rw [← he]
    exact List.mem_map_of_mem Prod.fst hp

/-- C7 witness: the general branch of `C7_type_mapping` at the concrete
input "mystery_event". -/
theorem C7_type_mapping_witness :
    map_transaction_type "mystery_event" = "adjustment" :=
  C7_type_mapping.2.2 "mystery_event" (by decide)

/-- C8: for revenue source types (charge/payment), `parse_income_category`
classifies by case-insensitive substring match with invoice keywords
checked before subscription keywords, falling back on the raw source type
(payment→invoice, charge→subscription) when no keyword matches; the two
concrete examples of the spec hold. -/
theorem C8_income_classification :
    (∀ (d : Option String) (st : String),
      (strLower st = "charge" ∨ strLower st = "payment") →
      INVOICE_KEYWORDS.any
          (fun k => strContains (strLower (d.getD "")) k) = true →
      parse_income_category d st = some "invoice")
    ∧ (∀ (d : Option String) (st : String),
      INVOICE_KEYWORDS.any
          (fun k => strContains (strLower (d.getD "")) k) = false →
      SUBSCRIPTION_KEYWORDS.any
          (fun k => strContains (strLower (d.getD "")) k) = false →
      (strLower st = "payment" → parse_income_category d st = some "invoice")
        ∧ (strLower st = "charge" →
            parse_income_category d st = some "subscription"))
    ∧ parse_income_category (some "Subscription creation") "charge"
        = some "subscription"
    ∧ parse_income_category (some "Payment for Invoice #123") "payment"
        = some "invoice" := by
  refine ⟨fun d st hst hinv => ?_, fun d st hinv hsub => ⟨fun hp => ?_, fun hc => ?_⟩,
    by decide, by decide⟩
  · rcases hst with hc | hp
    · simp [parse_income_category, hc, hinv]
    · simp [parse_income_category, hp, hinv]
  · simp [parse_income_category, hp, hinv, hsub]
  · simp [parse_income_category, hc, hinv, hsub]

/-- C8 witness: the keyword-priority branch of `C8_income_classification`
at a description containing both an invoice and a subscription keyword. -/
theorem C8_income_classification_witness :
    parse_income_category (some "Payment for Invoice subscription") "charge"
      = some "invoice" :=
  C8_income_classification.1 (some "Payment for Invoice subscription")
    "charge" (by decide) (by decide)

/-- Evaluation rule for `round2` when the scaled fractional part is above
one half. -/
theorem round2_high (x : ℚ) (f : ℤ) (h1 : (f : ℚ) ≤ x * 100)
    (h2 : x * 100 < f + 1) (h3 : 1/2 < x * 100 - f) :
    round2 x = ((f + 1 : ℤ) : ℚ) / 100 := by
  unfold round2
  rw [rhe_eq_high (x * 100) f h1 h2 h3]

/-- Evaluation rule for `round2` when the scaled fractional part is below
one half. -/
theorem round2_low (x : ℚ) (f : ℤ) (h1 : (f : ℚ) ≤ x * 100)
    (h2 : x * 100 < f + 1) (h3 : x * 100 - f < 1/2) :
    round2 x = (f : ℚ) / 100 := by
  unfold round2
  rw [rhe_eq_low (x * 100) f h1 h2 h3]

/-- A concrete account mapping (names are irrelevant to every property
proved here). -/
def A0 : Accounts :=
  { checking := "Assets:Checking"
    operating := "Assets:Operating"
    withholding_fica_employee := "Assets:Withholding:FicaEE"
    withholding_fica_employer := "Assets:Withholding:FicaER"
    withholding_federal := "Assets:Withholding:Federal"
    withholding_state := "Assets:Withholding:State"
    stripe_balance := "Assets:StripeBalance"
    transaction_fees := "Expenses:TransactionFees"
    billing_fees := "Expenses:BillingFees"
    subscription_income := "Income:Subscriptions"
    invoice_income := "Income:Invoices"
    tax_liability_fica_employee := "Liabilities:Tax:FicaEE"
    tax_liability_fica_employer := "Liabilities:Tax:FicaER"
    tax_liability_federal := "Liabilities:Tax:Federal"
    tax_liability_state := "Liabilities:Tax:State"
    tax_expense_fica_employee := "Expenses:Tax:FicaEE"
    tax_expense_fica_employer := "Expenses:Tax:FicaER"
    tax_expense_federal := "Expenses:Tax:Federal"
    tax_expense_state := "Expenses:Tax:State" }

/-- The configuration of the spec's worked example: rates
0.062/0.062/0.12/0.05, rounding enabled. -/
def cfgExample : Config :=
  { accounts := A0
    tax_rates :=
      { fica_employee := 62/1000
        fica_employer := 62/1000
        federal_income := 12/100
        state_income := 5/100 }
    options :=
      { auto_withhold := true, split_fica := true, round_to_cents := true } }

/-- The tax computation exactly as the claim words it (spec-side model for
the refinement comparison of C3): `fica_employee = gross*rate`,
`fica_employer = gross*rate`,
`income_basis = gross - fees - 0.5*(fica_employee + fica_employer)`,
`federal = income_basis*rate`, `state = income_basis*rate`, each of the
four results rounded to 2 decimals exactly when rounding is enabled, with
no clamping of a negative basis. -/
def calcTaxesSpecModel (c : Config) (gross fees : ℚ) : TaxResult :=
  let fica_employee := gross * c.tax_rates.fica_employee
  let fica_employer := gross * c.tax_rates.fica_employer
  let income_basis := gross - fees - (1/2) * (fica_employee + fica_employer)
  let federal := income_basis * c.tax_rates.federal_income
  let state := income_basis * c.tax_rates.state_income
  if c.options.round_to_cents then
    { fica_employee := round2 fica_employee
      fica_employer := round2 fica_employer
      federal := round2 federal
      state := round2 state }
  else
    { fica_employee, fica_employer, federal, state }

/-- C3: `Config.calculate_taxes` computes exactly the formulas of the
spec (FICA on gross, income basis reduced by half of total FICA, federal
and state on the basis, results rounded to cents when enabled, negative
bases never clamped), and on the spec's worked example
(gross 19.00, fees 2.75, rates 0.062/0.062/0.12/0.05, rounding on) it
returns 1.18/1.18/1.81/0.75. -/
theorem C3_tax_engine :
    (∀ (c : Config) (gross fees : ℚ), 0 ≤ gross → 0 ≤ fees →
      c.calculate_taxes gross fees = calcTaxesSpecModel c gross fees)
    ∧ cfgExample.calculate_taxes 19 (275/100) =
        { fica_employee := 118/100
          fica_employer := 118/100
          federal := 181/100
          state := 75/100 } := by
  constructor
  · intro c g f _ _
    have hb : g - f
        - ((g * c.tax_rates.fica_employee + g * c.tax_rates.fica_employer)
            * (1/2))
        = g - f - (1/2) * (g * c.tax_rates.fica_employee
            + g * c.tax_rates.fica_employer) := by ring
    simp only [Config.calculate_taxes, calcTaxesSpecModel, hb]
  · have r1 : round2 ((19 : ℚ) * (62/1000)) = ((117 + 1 : ℤ) : ℚ) / 100 :=
      round2_high _ 117 (by norm_num) (by norm_num) (by norm_num)
    have hb : (19 : ℚ) - 275/100
        - ((19 * (62/1000) + 19 * (62/1000)) * (1/2)) = 1884/125 := by
      norm_num
    have r2 : round2 ((1884/125 : ℚ) * (12/100)) = ((180 + 1 : ℤ) : ℚ) / 100 :=
      round2_high _ 180 (by norm_num) (by norm_num) (by norm_num)
    have r3 : round2 ((1884/125 : ℚ) * (5/100)) = ((75 : ℤ) : ℚ) / 100 :=
      round2_low _ 75 (by norm_num) (by norm_num) (by norm_num)
    simp only [Config.calculate_taxes, cfgExample, if_true]
    rw [hb, r1, r2, r3]
    simp only [TaxResult.mk.injEq]
    norm_num

/-- C3 witness: the general branch of `C3_tax_engine` at the worked
example's inputs. -/
theorem C3_tax_engine_witness :
    (0 : ℚ) ≤ 19 ∧ (0 : ℚ) ≤ 275/100
      ∧ cfgExample.calculate_taxes 19 (275/100)
          = calcTaxesSpecModel cfgExample 19 (275/100) :=
  ⟨by norm_num, by norm_num,
    C3_tax_engine.1 cfgExample 19 (275/100) (by norm_num) (by norm_num)⟩

/-- C9: the four results of `calculate_taxes` sum to `total_withholding`
within 0.01 (they are equal on the nose in exact arithmetic), and every
`TaxCalculation` the importer builds has `total` equal to the sum of its
four components within 0.01. -/
theorem C9_tax_additivity :
    (∀ (c : Config) (gross fees : ℚ), c.options.round_to_cents = true →
      0 ≤ gross → 0 ≤ fees →
      |((c.calculate_taxes gross fees).fica_employee
          + (c.calculate_taxes gross fees).fica_employer
          + (c.calculate_taxes gross fees).federal
          + (c.calculate_taxes gross fees).state)
        - c.total_withholding gross fees| ≤ 1/100)
    ∧ (∀ (txn : Transaction) (c : Config) (now : Int) (tc : TaxCalculation),
      calculate_taxes txn c now = some tc →
      |tc.total
        - (tc.fica_employee + tc.fica_employer + tc.federal + tc.state)|
          ≤ 1/100) := by
  constructor
  · intro c g f _ _ _
    simp only [Config.total_withholding]
    rw [sub_self, abs_zero]
    norm_num
  · intro txn c now tc h
    unfold calculate_taxes at h
    rcases hg : txn.gross with _ | g <;> rw [hg] at h
    · rcases hf : txn.fees with _ | f <;> rw [hf] at h <;> simp at h
    · rcases hf : txn.fees with _ | f <;> rw [hf] at h
      · simp at h
      · by_cases ht : txn.type ≠ "revenue"
        · simp [ht] at h
        · simp only [ht, if_false] at h
          injection h with h2
          subst h2
          simp

theorem aggregate_total_eq (cs : List TaxCalculation)
    (h : ∀ c ∈ cs, c.total
      = c.fica_employee + c.fica_employer + c.federal + c.state) :
    (aggregateTaxes cs).total
      = (aggregateTaxes cs).fica_employee + (aggregateTaxes cs).fica_employer
        + (aggregateTaxes cs).federal + (aggregateTaxes cs).state := by
  induction cs with
  | nil => simp [aggregateTaxes]
  | cons c t ih =>
    have hc := h c (List.mem_cons_self c t)
    have ht := ih fun q hq => h q (List.mem_cons_of_mem c hq)
    simp only [aggregateTaxes, List.map_cons, List.sum_cons] at ht ⊢
    linarith

/-- C9 witness: both branches of `C9_tax_additivity` at concrete inputs. -/
theorem C9_tax_additivity_witness :
    |((cfgExample.calculate_taxes 19 (275/100)).fica_employee
        + (cfgExample.calculate_taxes 19 (275/100)).fica_employer
        + (cfgExample.calculate_taxes 19 (275/100)).federal
        + (cfgExample.calculate_taxes 19 (275/100)).state)
      - cfgExample.total_withholding 19 (275/100)| ≤ 1/100 :=
  C9_tax_additivity.1 cfgExample 19 (275/100) rfl (by norm_num) (by norm_num)

/-- C1 (amended): every revenue entry built from a transaction with
`net = gross - fees` is balanced, with or without a `TaxCalculation`
(the eight tax splits cancel pairwise whatever their signs); every
platform-fee entry is balanced; a payout entry is balanced whenever every
aggregated tax component is non-negative (zero components are simply
omitted) — the aggregated `total` equals the sum of the four aggregated
components whenever each stored `TaxCalculation` satisfies its own
`total`-additivity invariant, which is what the importer stores. -/
theorem C1_journal_balance :
    (∀ (A : Accounts) (txn : Transaction) (tc : Option TaxCalculation)
        (g f : ℚ),
      txn.gross = some g → txn.fees = some f → txn.net = g - f →
      (build_revenue_entry A txn tc).map JournalEntry.is_balanced
        = some true)
    ∧ (∀ (A : Accounts) (txn : Transaction),
        (build_fee_entry A txn).is_balanced = true)
    ∧ (∀ (A : Accounts) (txn : Transaction) (taxes : PayoutTaxes),
      taxes.total = taxes.fica_employee + taxes.fica_employer
        + taxes.federal + taxes.state →
      0 ≤ taxes.fica_employee → 0 ≤ taxes.fica_employer →
      0 ≤ taxes.federal → 0 ≤ taxes.state →
      (build_payout_entry A txn taxes).is_balanced = true)
    ∧ (∀ cs : List TaxCalculation,
      (∀ c ∈ cs, c.total
        = c.fica_employee + c.fica_employer + c.federal + c.state) →
      (aggregateTaxes cs).total
        = (aggregateTaxes cs).fica_employee
          + (aggregateTaxes cs).fica_employer
          + (aggregateTaxes cs).federal + (aggregateTaxes cs).state) := by
  refine ⟨fun A txn tc g f hg hf hnet => ?_, fun A txn => ?_,
    fun A txn taxes htot h1 h2 h3 h4 => ?_, aggregate_total_eq⟩
  · simp only [build_revenue_entry, hg, hf]
    rcases tc with _ | c <;>
      simp only [Option.map_some', Option.some.injEq,
        JournalEntry.is_balanced, List.map_append, List.map_cons,
        List.map_nil, List.sum_append, List.sum_cons, List.sum_nil,
        decide_eq_true_eq, hnet] <;>
      · rw [abs_lt]
        constructor <;> linarith
  · simp only [build_fee_entry, JournalEntry.is_balanced, List.map_cons,
      List.map_nil, List.sum_cons, List.sum_nil, decide_eq_true_eq]
    rw [abs_lt]
    constructor <;> [linarith [abs_nonneg txn.net]; linarith [abs_nonneg txn.net]]
  · simp only [build_payout_entry, JournalEntry.is_balanced,
      decide_eq_true_eq]
    split_ifs <;>
      · simp only [List.map_append, List.map_cons, List.map_nil,
          List.sum_append, List.sum_cons, List.sum_nil]
        rw [abs_lt]
        constructor <;> linarith

/-- Concrete records used by the C1 witness and counterexample. -/
def tcEx : TaxCalculation :=
  { transaction_id := "r1", fica_employee := 118/100,
    fica_employer := 118/100, federal := 181/100, state := 75/100,
    total := 492/100, calculated_at := 0 }

/-- A revenue transaction with net 16.25 = 19.00 - 2.75. -/
def txnRev0 : Transaction :=
  { id := "r1", source := "stripe", source_id := "txn_r1",
    source_type := some "charge", date := some 100, type := "revenue",
    income_category := some "subscription",
    description := some "Subscription creation", gross := some 19,
    fees := some (275/100), net := 1625/100, currency := "usd",
    available_on := some 200, payout_id := none, created_at := 0,
    metadata := none, exported_gnucash := none }

/-- A platform-fee transaction of net -2.50. -/
def txnFee0 : Transaction :=
  { id := "f1", source := "stripe", source_id := "txn_f1",
    source_type := some "stripe_fee", date := some 100,
    type := "platform_fee", income_category := none,
    description := some "Billing", gross := none, fees := none,
    net := -(25/10), currency := "usd", available_on := none,
    payout_id := none, created_at := 0, metadata := none,
    exported_gnucash := none }

/-- A payout transaction of net -100. -/
def txnPay0 : Transaction :=
  { id := "p1", source := "stripe", source_id := "po_1",
    source_type := some "payout", date := some 300, type := "payout",
    income_category := none, description := none, gross := none,
    fees := none, net := -100, currency := "usd", available_on := none,
    payout_id := none, created_at := 0, metadata := none,
    exported_gnucash := none }

/-- Non-negative aggregated payout taxes whose total is the component
sum (what the store holds after importing the worked example). -/
def taxesPos : PayoutTaxes :=
  { fica_employee := 118/100, fica_employer := 118/100,
    federal := 181/100, state := 75/100, total := 492/100 }

/-- C1 witness: all four branches of `C1_journal_balance` at concrete
inputs. -/
theorem C1_journal_balance_witness :
    ((build_revenue_entry A0 txnRev0 (some tcEx)).map
        JournalEntry.is_balanced = some true)
    ∧ (build_fee_entry A0 txnFee0).is_balanced = true
    ∧ (build_payout_entry A0 txnPay0 taxesPos).is_balanced = true
    ∧ (aggregateTaxes [tcEx]).total
        = (aggregateTaxes [tcEx]).fica_employee
          + (aggregateTaxes [tcEx]).fica_employer
          + (aggregateTaxes [tcEx]).federal
          + (aggregateTaxes [tcEx]).state :=
  ⟨C1_journal_balance.1 A0 txnRev0 (some tcEx) 19 (275/100) rfl rfl
      (by norm_num [txnRev0]),
   C1_journal_balance.2.1 A0 txnFee0,
   C1_journal_balance.2.2.1 A0 txnPay0 taxesPos (by norm_num [taxesPos])
     (by norm_num [taxesPos]) (by norm_num [taxesPos])
     (by norm_num [taxesPos]) (by norm_num [taxesPos]),
   C1_journal_balance.2.2.2 [tcEx] (by
     intro c hc
     simp only [List.mem_singleton] at hc
     subst hc
     norm_num [tcEx])⟩

/-- A stored tax calculation whose federal component is negative (a loss:
the engine does not clamp), with `total` equal to the component sum
as the importer writes it. -/
def tcNeg : TaxCalculation :=
  { transaction_id := "r9", fica_employee := 0, fica_employer := 0,
    federal := -2, state := 0, total := -2, calculated_at := 0 }

/-- A store holding the payout `txnPay0` linked to the revenue behind
`tcNeg`. -/
def dbNeg : DB :=
  { txns := [txnPay0], taxCalcs := [tcNeg],
    payoutLinks := [("p1", "r9")], ioFailure := false }

/-- C1 counterexample: the taxes `get_taxes_for_payout` aggregates for
payout "p1" have a negative federal component, and the payout entry
`_build_payout_entry` builds from them is NOT balanced — it debits the
operating account for `|net| - total` (102) but adds no withholding split
for the negative component, leaving the entry off by 2. -/
theorem C1_counterexample :
    dbNeg.get_taxes_for_payout "p1"
      = { fica_employee := 0, fica_employer := 0, federal := -2,
          state := 0, total := -2 }
    ∧ (build_payout_entry A0 txnPay0
        (dbNeg.get_taxes_for_payout "p1")).is_balanced = false := by
  have htax : dbNeg.get_taxes_for_payout "p1"
      = { fica_employee := 0, fica_employer := 0, federal := -2,
          state := 0, total := -2 } := by
    norm_num [DB.get_taxes_for_payout, dbNeg, tcNeg, aggregateTaxes,
      List.filter, List.any]
  refine ⟨htax, ?_⟩
  rw [htax]
  simp only [build_payout_entry, JournalEntry.is_balanced, txnPay0,
    decide_eq_false_iff_not]
  norm_num
/-- The empty store. -/
def dbEmpty : DB :=
  { txns := [], taxCalcs := [], payoutLinks := [], ioFailure := false }

/-- A transaction whose `date` is `None` (a record with an empty
`Created (UTC)` field): inserting it violates the `NOT NULL` constraint,
which `sqlite3` reports as an `IntegrityError`. -/
def txnNullDate : Transaction :=
  { id := "t0", source := "stripe", source_id := "txn_nodate",
    source_type := some "payout", date := none, type := "payout",
    income_category := none, description := none, gross := none,
    fees := none, net := 0, currency := "usd", available_on := none,
    payout_id := none, created_at := 0, metadata := none,
    exported_gnucash := none }

/-- C5 (amended): `insert_transaction` returns true on a fresh insert and
false on a `(source, source_id)` duplicate without raising, and an
I/O-level failure propagates; but because the code catches EVERY
`sqlite3.IntegrityError`, a constraint violation outside the dedup key
(a NOT NULL violation, or a duplicate primary-key id) is ALSO reported as
a `false` result instead of propagating. -/
theorem C5_insert_semantics :
    ∀ (db : DB) (txn : Transaction),
      (db.ioFailure = false → integrityViolation db txn = false →
        db.insert_transaction txn
          = .ok (true, { db with txns := db.txns ++ [txn] }))
      ∧ (db.ioFailure = false →
          db.transaction_exists txn.source txn.source_id = true →
          db.insert_transaction txn = .ok (false, db))
      ∧ (db.ioFailure = true →
          db.insert_transaction txn = .error .operationalError)
      ∧ (db.ioFailure = false → txn.date = none →
          db.insert_transaction txn = .ok (false, db)) := by
  intro db txn
  refine ⟨fun hio hiv => ?_, fun hio hex => ?_, fun hio => ?_,
    fun hio hd => ?_⟩
  · simp [DB.insert_transaction, hio, hiv]
  · simp [DB.insert_transaction, integrityViolation, hio, hex]
  · simp [DB.insert_transaction, hio]
  · simp [DB.insert_transaction, integrityViolation, hio, hd]

/-- C5 witness: all four branches of `C5_insert_semantics` at concrete
stores and transactions. -/
theorem C5_insert_semantics_witness :
    (dbEmpty.insert_transaction txnPay0
      = .ok (true, { dbEmpty with txns := dbEmpty.txns ++ [txnPay0] }))
    ∧ (dbNeg.insert_transaction txnPay0 = .ok (false, dbNeg))
    ∧ (({ dbEmpty with ioFailure := true } : DB).insert_transaction txnPay0
        = .error .operationalError)
    ∧ (dbEmpty.insert_transaction txnNullDate = .ok (false, dbEmpty)) :=
  ⟨(C5_insert_semantics dbEmpty txnPay0).1 rfl (by decide),
   (C5_insert_semantics dbNeg txnPay0).2.1 rfl (by decide),
   (C5_insert_semantics { dbEmpty with ioFailure := true } txnPay0).2.2.1 rfl,
   (C5_insert_semantics dbEmpty txnNullDate).2.2.2 rfl rfl⟩

/-- C5 counterexample: a NOT NULL violation (null `date`, not the dedup
key — the store is empty) is returned as a normal `false` result and is
never raised, contradicting the claim that non-dedup constraint
violations propagate as fatal errors. -/
theorem C5_counterexample :
    dbEmpty.insert_transaction txnNullDate = .ok (false, dbEmpty)
    ∧ ∀ e : PyError,
        dbEmpty.insert_transaction txnNullDate ≠ .error e := by
  have h1 : dbEmpty.insert_transaction txnNullDate = .ok (false, dbEmpty) := by
    simp [DB.insert_transaction, integrityViolation, dbEmpty, txnNullDate,
      DB.transaction_exists]
  exact ⟨h1, fun e he => by rw [h1] at he; exact Except.noConfusion he⟩
/-- C2 (amended): for a raw record whose created date parses (the `date`
column is non-null) and whose generated uuid is fresh, a first
`import_transaction` returns true and appends exactly one transaction row
(plus a tax calculation when it is revenue), and ANY second call with the
same `source_id` — whatever its other fields — returns false and leaves
the store exactly as it was.  (When the created date is missing, the
insert hits the NOT NULL constraint and the first call already returns
false, inserting nothing — see the counterexample.) -/
theorem except_ok_bind {α β : Type} (x : α) (f : α → Except PyError β) :
    (Except.ok x >>= f) = f x := rfl

theorem except_pure_eq {α : Type} (x : α) :
    (pure x : Except PyError α) = Except.ok x := rfl

theorem except_map_ok {α β : Type} (f : α → β) (x : α) :
    (f <$> (Except.ok x : Except PyError α)) = Except.ok (f x) := rfl

theorem C2_import_idempotent :
    ∀ (db : DB) (config : Config) (freshId : String) (now : Int)
      (source_id source_type : String) (description : Option String)
      (amount fee net : ℚ) (currency : String) (d : Int)
      (available_date : Option Int) (payout_id : Option String),
    db.ioFailure = false →
    db.transaction_exists "stripe" source_id = false →
    (∀ t ∈ db.txns, t.id ≠ freshId) →
    ∃ db1 : DB,
      import_transaction db config freshId now source_id source_type
          description amount fee net currency (some d) available_date
          payout_id = .ok (true, db1)
      ∧ db1.txns = db.txns
          ++ [create_transaction freshId now source_id source_type
                description amount fee net currency (some d) available_date
                payout_id]
      ∧ (∀ (config2 : Config) (freshId2 : String) (now2 : Int)
          (st2 : String) (de2 : Option String) (a2 f2 n2 : ℚ)
          (cur2 : String) (cd2 av2 : Option Int) (p2 : Option String),
        import_transaction db1 config2 freshId2 now2 source_id st2 de2
            a2 f2 n2 cur2 cd2 av2 p2 = .ok (false, db1)) := by
  intro db config freshId now source_id source_type description amount fee
    net currency d available_date payout_id hio hex hfresh
  set txn := create_transaction freshId now source_id source_type
    description amount fee net currency (some d) available_date payout_id
    with htxn
  have hsrc : txn.source = "stripe" := rfl
  have hsid : txn.source_id = source_id := rfl
  have hid : txn.id = freshId := rfl
  have hdate : txn.date = some d := rfl
  have hiv : integrityViolation db txn = false := by
    simp only [integrityViolation, hsrc, hsid, hdate, Bool.or_eq_false_iff]
    refine ⟨⟨hex, ?_⟩, by simp⟩
    simp only [List.any_eq_false, decide_eq_true_eq]
    intro t ht
    rw [hid]
    exact hfresh t ht
  have hins : db.insert_transaction txn
      = .ok (true, { db with txns := db.txns ++ [txn] }) := by
    simp [DB.insert_transaction, hio, hiv]
  have hsecond : ∀ (dbx : DB), dbx.txns = db.txns ++ [txn] →
      ∀ (config2 : Config) (freshId2 : String) (now2 : Int)
        (st2 : String) (de2 : Option String) (a2 f2 n2 : ℚ)
        (cur2 : String) (cd2 av2 : Option Int) (p2 : Option String),
      import_transaction dbx config2 freshId2 now2 source_id st2 de2
          a2 f2 n2 cur2 cd2 av2 p2 = .ok (false, dbx) := by
    intro dbx hdbx config2 freshId2 now2 st2 de2 a2 f2 n2 cur2 cd2 av2 p2
    have hexists : dbx.transaction_exists "stripe" source_id = true := by
      simp only [DB.transaction_exists, hdbx, List.any_append,
        List.any_cons, List.any_nil, Bool.or_eq_true]
      right
      left
      simp [hsrc, hsid]
    simp only [import_transaction, hexists, if_true]
    rfl
  by_cases hrev : txn.type = "revenue"
  · have hgross : txn.gross = some |amount| := by
      simp only [htxn, create_transaction] at hrev ⊢
      simp only [hrev, if_true]
    have hfees : txn.fees = some |fee| := by
      simp only [htxn, create_transaction] at hrev ⊢
      simp only [hrev, if_true]
    have htc : ∃ tc, calculate_taxes txn config now = some tc := by
      rw [calculate_taxes, hgross, hfees]
      simp [hrev]
    obtain ⟨tc, htc⟩ := htc
    refine ⟨{ { db with txns := db.txns ++ [txn] } with
      taxCalcs := ({ db with txns := db.txns ++ [txn] } : DB).taxCalcs.filter
          (fun c => c.transaction_id ≠ tc.transaction_id) ++ [tc] }, ?_, by simp, ?_⟩
    · simp only [import_transaction, hex, Bool.false_eq_true, if_false,
        hins, except_ok_bind]
      simp only [← htxn, hrev, htc, if_true, except_ok_bind,
        except_pure_eq, except_map_ok]
      simp only [DB.insert_tax_calculation, hio, Bool.false_eq_true,
        if_false]
      rfl
    · exact hsecond _ (by simp)
  · refine ⟨{ db with txns := db.txns ++ [txn] }, ?_, by simp, ?_⟩
    · simp only [import_transaction, hex, Bool.false_eq_true, if_false,
        hins, except_ok_bind]
      simp only [← htxn, hrev]
      rfl
    · exact hsecond _ (by simp)
/-- The store after importing one payout record "txn_a". -/
def dbOne : DB :=
  { txns := [create_transaction "u1" 0 "txn_a" "payout" none 0 0 0 "usd"
      (some 100) none none],
    taxCalcs := [], payoutLinks := [], ioFailure := false }

/-- C2 witness: `C2_import_idempotent` at a concrete record — the
first import returns true and persists the row, a second import with the
`source_id` (and otherwise different fields) returns false and leaves the
store unchanged. -/
theorem C2_import_idempotent_witness :
    (import_transaction dbEmpty cfgExample "u1" 0 "txn_a" "payout" none
        0 0 0 "usd" (some 100) none none = .ok (true, dbOne))
    ∧ (import_transaction dbOne cfgExample "u2" 1 "txn_a" "charge"
        (some "x") 0 0 0 "usd" (some 200) none none
          = .ok (false, dbOne)) := by
  obtain ⟨db1, h1, _, h3⟩ :=
    C2_import_idempotent dbEmpty cfgExample "u1" 0 "txn_a" "payout" none
      0 0 0 "usd" 100 none none rfl rfl (by simp [dbEmpty])
  have hc : import_transaction dbEmpty cfgExample "u1" 0 "txn_a" "payout"
      none 0 0 0 "usd" (some 100) none none = .ok (true, dbOne) := rfl
  have hdb : db1 = dbOne := by
    rw [hc] at h1
    injection h1 with h1
    injection h1 with _ h2
    exact h2.symm
  subst hdb
  exact ⟨hc, h3 cfgExample "u2" 1 "charge" (some "x") 0 0 0 "usd"
    (some 200) none none⟩

/-- C2 counterexample: a raw record whose created date is missing
(`parse_date` of an empty `Created (UTC)` gives `None`).  Even on an
empty ledger the FIRST `import_transaction` call returns false and
persists nothing — the NOT NULL failure is swallowed as a duplicate-style
result — so importing it (once or twice) does not yield "exactly one
persisted Transaction with the first call returning true". -/
theorem C2_counterexample :
    import_transaction dbEmpty cfgExample "u1" 0 "txn_nodate" "payout"
        none 0 0 0 "usd" none none none = .ok (false, dbEmpty) := rfl
/-- Distinct per-row uuids for the C6 batch. -/
def freshIdsEx : Nat → String := fun i => ⟨List.replicate (i + 1) 'u'⟩

/-- A well-formed payout row. -/
def rowPay : CsvRow :=
  { id := "txn_p", type := "payout", description := "", amountRaw := .val 0,
    feeRaw := .val 0, netRaw := .val (-50), currency := "usd",
    createdRaw := .val 100, availableRaw := .empty, transfer := "" }

/-- A row whose `Amount` does not parse (`float()` raises). -/
def rowBad : CsvRow :=
  { id := "txn_b", type := "charge", description := "x",
    amountRaw := .malformed, feeRaw := .val 0, netRaw := .val 0,
    currency := "usd", createdRaw := .val 100, availableRaw := .empty,
    transfer := "" }

/-- A well-formed platform-fee row. -/
def rowFee : CsvRow :=
  { id := "txn_f", type := "stripe_fee", description := "fee",
    amountRaw := .val 0, feeRaw := .val 0, netRaw := .val (-2),
    currency := "usd", createdRaw := .val 101, availableRaw := .empty,
    transfer := "" }

/-- C6: the dict `import_csv` returns has exactly the three keys
of imported, skipped and errors — `linked` and `orphans` are absent for
batch, contrary to the claimed result contract (and to `cli.py`'s
`cmd_import`, which reads `result["linked"]` and `result["orphans"]`);
the per-record error isolation, by contrast, does hold: on a batch whose
second row fails to parse, the row is counted in `errors` and the
remaining row is still imported. -/
theorem C6_import_result :
    (∀ (db : DB) (config : Config) (rows : List CsvRow)
        (freshIds : Nat → String) (now : Int),
      ((import_csv db config rows freshIds now).1).map Prod.fst
        = ["imported", "skipped", "errors"])
    ∧ ((import_csv dbEmpty cfgExample [rowPay, rowBad, rowFee]
          freshIdsEx 0).1
        = [("imported", 2), ("skipped", 0), ("errors", 1)])
    ∧ ((import_csv dbEmpty cfgExample [rowPay, rowBad, rowFee]
          freshIdsEx 0).1.lookup "linked" = none)
    ∧ ((import_csv dbEmpty cfgExample [rowPay, rowBad, rowFee]
          freshIdsEx 0).1.lookup "orphans" = none) := by
  refine ⟨fun db config rows freshIds now => ?_, rfl, rfl, rfl⟩
  rcases h : importCsvLoop config freshIds now rows 0 db with ⟨⟨im, sk, er⟩, db1⟩
  simp [import_csv, h]
/-- Whether `export_all` emits (and therefore marks) a transaction: its
entry exists and is balanced. -/
def emits (A : Accounts) (db : DB) (t : Transaction) : Bool :=
  match export_entry A db t with
  | some e => e.is_balanced
  | none => false

theorem export_loop_ids (A : Accounts) (db : DB) (l : List Transaction) :
    (export_loop A db l).exportedIds
      = (l.filter (emits A db)).map Transaction.id := by
  induction l with
  | nil => rfl
  | cons t ts ih =>
    rcases h : export_entry A db t with _ | e
    · simp only [export_loop, h, List.filter_cons, emits,
        Bool.false_eq_true, if_false, ih]
    · rcases hb : e.is_balanced with _ | _
      · simp only [export_loop, h, hb, Bool.false_eq_true, if_false,
          List.filter_cons, emits, ih]
      · simp only [export_loop, h, hb, if_true, List.filter_cons, emits,
          List.map_cons, ih]

theorem export_loop_entries_of_emits (A : Accounts) (db : DB)
    (l : List Transaction) (t : Transaction) (ht : t ∈ l)
    (he : emits A db t = true) :
    ∃ e, export_entry A db t = some e ∧ e.is_balanced = true
      ∧ e ∈ (export_loop A db l).entries := by
  induction l with
  | nil => cases ht
  | cons q ts ih =>
    rcases List.mem_cons.mp ht with rfl | hts
    · rcases h : export_entry A db t with _ | e
      · rw [emits, h] at he
        exact Bool.noConfusion he
      · have hb : e.is_balanced = true := by simpa [emits, h] using he
        refine ⟨e, rfl, hb, ?_⟩
        simp only [export_loop, h, hb, if_true, List.mem_cons]
        left
        trivial
    · obtain ⟨e, he1, he2, he3⟩ := ih hts
      refine ⟨e, he1, he2, ?_⟩
      rcases h : export_entry A db q with _ | e2
      · simpa only [export_loop, h] using he3
      · rcases hb : e2.is_balanced with _ | _
        · simpa only [export_loop, h, hb, Bool.false_eq_true, if_false]
            using he3
        · simp only [export_loop, h, hb, if_true, List.mem_cons]
          right
          exact he3

theorem export_loop_skipped_ge (A : Accounts) (db : DB)
    (l : List Transaction) (t : Transaction) (ht : t ∈ l)
    (hn : export_entry A db t = none) :
    1 ≤ (export_loop A db l).skipped := by
  induction l with
  | nil => cases ht
  | cons q ts ih =>
    rcases List.mem_cons.mp ht with rfl | hts
    · simp only [export_loop, hn]
      omega
    · have := ih hts
      rcases h : export_entry A db q with _ | e
      · simp only [export_loop, h]
        omega
      · rcases hb : e.is_balanced with _ | _
        · simp only [export_loop, h, hb, Bool.false_eq_true, if_false]
          omega
        · simp only [export_loop, h, hb, if_true]
          omega
theorem export_all_ids_eq (A : Accounts) (db : DB) (now : Int) (me : Bool) :
    (export_all A db now me).1.exportedIds
      = (export_loop A db db.get_unexported_transactions).exportedIds := rfl

theorem export_all_written_eq (A : Accounts) (db : DB) (now : Int)
    (me : Bool) :
    (export_all A db now me).1.written
      = (export_loop A db db.get_unexported_transactions).entries.mergeSort
          (fun a b => dateLe a.date b.date) := rfl

theorem export_all_effects_eq (A : Accounts) (db : DB) (now : Int)
    (me : Bool) :
    (export_all A db now me).1.effects
      = Effect.writeCsv (export_all A db now me).1.written
        :: (if me
              && !(export_loop A db
                    db.get_unexported_transactions).exportedIds.isEmpty
            then [Effect.mark
              (export_loop A db db.get_unexported_transactions).exportedIds
              "gnucash"]
            else []) := rfl

theorem export_all_snd_eq (A : Accounts) (db : DB) (now : Int) (me : Bool) :
    (export_all A db now me).2
      = if me
            && !(export_loop A db
                  db.get_unexported_transactions).exportedIds.isEmpty
        then db.mark_exported
          (export_loop A db db.get_unexported_transactions).exportedIds now
        else db := rfl

theorem not_emits_of_never_balanced (A : Accounts) (db : DB)
    (t : Transaction)
    (h : ∀ e, export_entry A db t = some e → e.is_balanced = false) :
    emits A db t = false := by
  rcases he : export_entry A db t with _ | e
  · rw [emits, he]
  · rw [emits, he]
    exact h e he

theorem not_mem_exported_of_not_emits (A : Accounts) (db : DB)
    (t : Transaction) (hno : (db.txns.map Transaction.id).Nodup)
    (ht : t ∈ db.get_unexported_transactions)
    (hne : emits A db t = false) :
    t.id ∉ (export_loop A db db.get_unexported_transactions).exportedIds := by
  intro hmem
  rw [export_loop_ids] at hmem
  obtain ⟨t2, ht2, hid⟩ := List.mem_map.mp hmem
  obtain ⟨ht2u, ht2e⟩ := List.mem_filter.mp ht2
  have htm : t ∈ db.txns := (List.mem_filter.mp ht).1
  have ht2m : t2 ∈ db.txns := (List.mem_filter.mp ht2u).1
  have : t2 = t := List.inj_on_of_nodup_map hno ht2m htm hid
  rw [this] at ht2e
  rw [hne] at ht2e
  exact Bool.noConfusion ht2e

/-- C4: in every `export_all` run, (a) a transaction whose entry is
missing or unbalanced is never passed to `mark_exported` — its id is not
collected and its row survives the run unmodified; (b) every id that IS
marked belongs to a fetched transaction whose balanced entry is among the
written rows; and (c) in the run's effect sequence the mark effect occurs
strictly after the CSV write effect, never before. -/
theorem C4_export_marking :
    ∀ (A : Accounts) (db : DB) (now : Int) (me : Bool),
      ((db.txns.map Transaction.id).Nodup →
        ∀ t ∈ db.get_unexported_transactions,
          (∀ e, export_entry A db t = some e → e.is_balanced = false) →
          t.id ∉ (export_all A db now me).1.exportedIds
            ∧ t ∈ (export_all A db now me).2.txns)
      ∧ (∀ id ∈ (export_all A db now me).1.exportedIds,
          ∃ t ∈ db.get_unexported_transactions, t.id = id
            ∧ ∃ e, export_entry A db t = some e ∧ e.is_balanced = true
              ∧ e ∈ (export_all A db now me).1.written)
      ∧ (∀ (i : Nat) (ids : List String) (ex : String),
          (export_all A db now me).1.effects.get? i
            = some (Effect.mark ids ex) →
          ∃ (j : Nat) (es : List JournalEntry), j < i
            ∧ (export_all A db now me).1.effects.get? j
              = some (Effect.writeCsv es)) := by
  intro A db now me
  refine ⟨fun hno t ht hbad => ?_, fun id hid => ?_, fun i ids ex hi => ?_⟩
  · have hne := not_emits_of_never_balanced A db t hbad
    have hnm := not_mem_exported_of_not_emits A db t hno ht hne
    rw [export_all_ids_eq]
    refine ⟨hnm, ?_⟩
    rw [export_all_snd_eq]
    have htm : t ∈ db.txns := (List.mem_filter.mp ht).1
    split
    · simp only [DB.mark_exported]
      refine List.mem_map.mpr ⟨t, htm, ?_⟩
      rw [if_neg hnm]
    · exact htm
  · rw [export_all_ids_eq, export_loop_ids] at hid
    obtain ⟨t2, ht2, hid2⟩ := List.mem_map.mp hid
    obtain ⟨ht2u, ht2e⟩ := List.mem_filter.mp ht2
    obtain ⟨e, he1, he2, he3⟩ :=
      export_loop_entries_of_emits A db _ t2 ht2u ht2e
    refine ⟨t2, ht2u, hid2, e, he1, he2, ?_⟩
    rw [export_all_written_eq]
    exact List.mem_mergeSort.mpr he3
  · rw [export_all_effects_eq] at hi
    rcases i with _ | i
    · rw [List.get?_cons_zero] at hi
      injection hi with hi
      exact Effect.noConfusion hi
    · exact ⟨0, (export_all A db now me).1.written, Nat.succ_pos i,
        by rw [export_all_effects_eq, List.get?_cons_zero]⟩
/-- A refund transaction that has never been exported. -/
def txnRef0 : Transaction :=
  { id := "rf1", source := "stripe", source_id := "txn_rf",
    source_type := some "refund", date := some 50, type := "refund",
    income_category := none, description := some "Refund", gross := none,
    fees := none, net := -10, currency := "usd", available_on := none,
    payout_id := none, created_at := 0, metadata := none,
    exported_gnucash := none }

/-- A store holding only that refund transaction. -/
def dbRef : DB :=
  { txns := [txnRef0], taxCalcs := [], payoutLinks := [],
    ioFailure := false }

/-- C4 witness: branch (a) of `C4_export_marking` at a concrete store —
the refund transaction, whose entry is missing, is not marked and
survives the run. -/
theorem C4_export_marking_witness :
    txnRef0.id ∉ (export_all A0 dbRef 5 true).1.exportedIds
      ∧ txnRef0 ∈ (export_all A0 dbRef 5 true).2.txns :=
  (C4_export_marking A0 dbRef 5 true).1 (by decide) txnRef0
    (List.mem_filter.mpr ⟨List.mem_cons_self txnRef0 [], by decide⟩)
    (fun e he => by
      rw [(by decide : export_entry A0 dbRef txnRef0 = none)] at he
      exact Option.noConfusion he)

theorem export_entry_none_of_refund_or_adjustment (A : Accounts) (db : DB)
    (t : Transaction) (h : t.type = "refund" ∨ t.type = "adjustment") :
    export_entry A db t = none := by
  rcases h with h | h <;> simp [export_entry, h]

theorem mark_exported_map_id (db : DB) (ids : List String) (now : Int) :
    (db.mark_exported ids now).txns.map Transaction.id
      = db.txns.map Transaction.id := by
  simp only [DB.mark_exported, List.map_map]
  apply List.map_congr_left
  intro a _
  simp only [Function.comp_apply]
  split <;> rfl

theorem refund_state_facts (A : Accounts) (now : Int) (db : DB)
    (t : Transaction) (hno : (db.txns.map Transaction.id).Nodup)
    (ht : t ∈ db.txns) (htype : t.type = "refund" ∨ t.type = "adjustment")
    (hm : t.exported_gnucash = none) :
    t ∈ db.get_unexported_transactions
    ∧ export_entry A db t = none
    ∧ 1 ≤ (export_all A db now true).1.skipped
    ∧ t.id ∉ (export_all A db now true).1.exportedIds
    ∧ t ∈ (export_all A db now true).2.txns
    ∧ (export_all A db now true).2.txns.map Transaction.id
        = db.txns.map Transaction.id := by
  have hnone := export_entry_none_of_refund_or_adjustment A db t htype
  have hunexp : t ∈ db.get_unexported_transactions :=
    List.mem_filter.mpr ⟨ht, by simp [hm]⟩
  have hsk : 1 ≤ (export_all A db now true).1.skipped :=
    export_loop_skipped_ge A db _ t hunexp hnone
  have hnm : t.id
      ∉ (export_loop A db db.get_unexported_transactions).exportedIds :=
    not_mem_exported_of_not_emits A db t hno hunexp (by rw [emits, hnone])
  refine ⟨hunexp, hnone, hsk, by rw [export_all_ids_eq]; exact hnm, ?_, ?_⟩
  · rw [export_all_snd_eq]
    split
    · simp only [DB.mark_exported]
      exact List.mem_map.mpr ⟨t, ht, by rw [if_neg hnm]⟩
    · exact ht
  · rw [export_all_snd_eq]
    split
    · exact mark_exported_map_id db _ now
    · rfl

/-- C10: a refund or adjustment transaction in the unexported set never
gets a journal entry, is counted in the skipped tally, and is never
marked — after any number of export runs it is still present with its
`exported_gnucash` marker absent, is re-fetched into the unexported set,
and the next run again skips it without marking it. -/
theorem C10_refund_adjustment_retained :
    ∀ (A : Accounts) (now : Int) (n : Nat) (db : DB) (t : Transaction),
    (db.txns.map Transaction.id).Nodup →
    t ∈ db.txns →
    (t.type = "refund" ∨ t.type = "adjustment") →
    t.exported_gnucash = none →
    t ∈ (export_runs A now n db).txns
    ∧ t ∈ (export_runs A now n db).get_unexported_transactions
    ∧ export_entry A (export_runs A now n db) t = none
    ∧ 1 ≤ (export_all A (export_runs A now n db) now true).1.skipped
    ∧ t.id ∉ (export_all A (export_runs A now n db) now
        true).1.exportedIds := by
  intro A now n
  induction n with
  | zero =>
    intro db t hno ht htype hm
    obtain ⟨h1, h2, h3, h4, _, _⟩ :=
      refund_state_facts A now db t hno ht htype hm
    exact ⟨ht, h1, h2, h3, h4⟩
  | succ n ih =>
    intro db t hno ht htype hm
    obtain ⟨_, _, _, _, hmem, hids⟩ :=
      refund_state_facts A now db t hno ht htype hm
    have hno2 : ((export_all A db now true).2.txns.map Transaction.id).Nodup := by
      rw [hids]
      exact hno
    exact ih (export_all A db now true).2 t hno2 hmem htype hm

/-- C10 witness: `C10_refund_adjustment_retained` after two runs on the
concrete refund store. -/
theorem C10_refund_adjustment_retained_witness :
    txnRef0 ∈ (export_runs A0 7 2 dbRef).txns
    ∧ txnRef0 ∈ (export_runs A0 7 2 dbRef).get_unexported_transactions
    ∧ export_entry A0 (export_runs A0 7 2 dbRef) txnRef0 = none
    ∧ 1 ≤ (export_all A0 (export_runs A0 7 2 dbRef) 7 true).1.skipped
    ∧ txnRef0.id
        ∉ (export_all A0 (export_runs A0 7 2 dbRef) 7 true).1.exportedIds :=
  C10_refund_adjustment_retained A0 7 2 dbRef txnRef0 (by decide)
    (List.mem_cons_self txnRef0 []) (Or.inl rfl) rfl
